import Mathlib

/-!
Shallow embedding of `src/torchlight/URLInfo.py` (URL classifier, media
resolver, playback-offset parser), together with theorems checking the
natural-language specification against it.

External collaborators (the HTTP transport, BeautifulSoup, PIL, libmagic,
and the yt_dlp extraction backend) are modelled as explicit function
parameters / outcome values; everything the repository's own code does is
translated directly from the Python source.
-/

/-! ### Python string primitives used by the source -/

/-- `listStarts pat cs` : does `cs` begin with the character list `pat`?
Models Python's `str.startswith` check on the underlying characters. -/
def listStarts : List Char → List Char → Bool
  | [], _ => true
  | _ :: _, [] => false
  | p :: ps, c :: cs => p == c && listStarts ps cs

/-- Python `s.startswith(pat)`. -/
def pyStarts (s pat : String) : Bool := listStarts pat.data s.data

/-- ASCII whitespace stripped by Python's `str.strip()`. -/
def isPyWs (c : Char) : Bool :=
  c == ' ' || c == '\t' || c == '\n' || c == '\r' || c == '\x0b' || c == '\x0c'

def pyStripChars (cs : List Char) : List Char :=
  ((cs.dropWhile isPyWs).reverse.dropWhile isPyWs).reverse

/-- Python `s.strip()` (whitespace form). -/
def pyStrip (s : String) : String := ⟨pyStripChars s.data⟩

def isDigitCh (c : Char) : Bool := '0' ≤ c && c ≤ '9'

def digitVal (c : Char) : Nat := c.toNat - 48

/-- Remaining digits of a Python integer literal: digits, with single
underscores allowed between digits. -/
def digitsRest : List Char → Nat → Option Nat
  | [], acc => some acc
  | ['_'], _ => none
  | '_' :: c :: cs, acc =>
      if isDigitCh c then digitsRest cs (acc * 10 + digitVal c) else none
  | c :: cs, acc =>
      if isDigitCh c then digitsRest cs (acc * 10 + digitVal c) else none

def parseDigits : List Char → Option Nat
  | [] => none
  | c :: cs => if isDigitCh c then digitsRest cs (digitVal c) else none

/-- Model of Python's `int(str)`: optional surrounding whitespace, optional
sign, then digits (underscore separators allowed); `none` models the
`ValueError` raise. -/
def pyInt (s : String) : Option Int :=
  match pyStripChars s.data with
  | '-' :: rest => (parseDigits rest).map (fun n => -(n : Int))
  | '+' :: rest => (parseDigits rest).map (fun n => (n : Int))
  | rest => (parseDigits rest).map (fun n => (n : Int))

/-- Worker for Python `str.split(sep)` with a non-empty separator:
left-to-right, non-overlapping.  `fuel` is initialised to the input length;
each step consumes at least one character and one unit of fuel, so the
zero-fuel case is never reached from `pySplit`. -/
def pySplitGo (sep : List Char) : Nat → List Char → List Char → List (List Char)
  | 0, cur, cs => [cur.reverse ++ cs]
  | _ + 1, cur, [] => [cur.reverse]
  | fuel + 1, cur, c :: cs =>
      if listStarts sep (c :: cs) then
        cur.reverse :: pySplitGo sep fuel [] ((c :: cs).drop sep.length)
      else
        pySplitGo sep fuel (c :: cur) cs

/-- Python `s.split(sep)` for non-empty `sep`. -/
def pySplit (s sep : String) : List String :=
  (pySplitGo sep.data s.data.length [] s.data).map fun l => ⟨l⟩

/-- Python `sep in s` for non-empty `sep`: the split has at least two parts. -/
def pyContains (s sep : String) : Bool := 2 ≤ (pySplit s sep).length

/-- Python `s.replace("s", "")`: drop every occurrence of the character. -/
def removeAllChar (ch : Char) (s : String) : String := ⟨s.data.filter (· != ch)⟩

/-! ### UTF-8 decoding (`bytes.decode("utf-8", errors=...)`)

One-byte-at-a-time decoder following CPython's maximal-subpart error
handling: an invalid subsequence produces one error-handler invocation
(`replace` emits U+FFFD, `ignore` emits nothing) and decoding resumes at
the offending byte. -/

structure U8St where
  need : Nat
  val : Nat
  lo : Nat
  hi : Nat
deriving DecidableEq

def badOut (replace : Bool) : List Char := if replace then [Char.ofNat 0xFFFD] else []

/-- Classify a byte in the initial state: ASCII, multi-byte lead, or invalid. -/
def u8Start (replace : Bool) (b : Nat) : List Char × U8St :=
  if b ≤ 0x7F then ([Char.ofNat b], ⟨0, 0, 0, 0⟩)
  else if 0xC2 ≤ b ∧ b ≤ 0xDF then ([], ⟨1, b - 0xC0, 0x80, 0xBF⟩)
  else if b = 0xE0 then ([], ⟨2, 0, 0xA0, 0xBF⟩)
  else if 0xE1 ≤ b ∧ b ≤ 0xEC then ([], ⟨2, b - 0xE0, 0x80, 0xBF⟩)
  else if b = 0xED then ([], ⟨2, 0xD, 0x80, 0x9F⟩)
  else if 0xEE ≤ b ∧ b ≤ 0xEF then ([], ⟨2, b - 0xE0, 0x80, 0xBF⟩)
  else if b = 0xF0 then ([], ⟨3, 0, 0x90, 0xBF⟩)
  else if 0xF1 ≤ b ∧ b ≤ 0xF3 then ([], ⟨3, b - 0xF0, 0x80, 0xBF⟩)
  else if b = 0xF4 then ([], ⟨3, 4, 0x80, 0x8F⟩)
  else (badOut replace, ⟨0, 0, 0, 0⟩)

def u8Step (replace : Bool) (st : U8St) (b : Nat) : List Char × U8St :=
  if st.need = 0 then u8Start replace b
  else if st.lo ≤ b ∧ b ≤ st.hi then
    let v := st.val * 64 + (b - 0x80)
    if st.need = 1 then ([Char.ofNat v], ⟨0, 0, 0, 0⟩)
    else ([], ⟨st.need - 1, v, 0x80, 0xBF⟩)
  else
    let (out, st2) := u8Start replace b
    (badOut replace ++ out, st2)

def u8Run (replace : Bool) : U8St → List Nat → List Char
  | st, [] => if st.need = 0 then [] else badOut replace
  | st, b :: rest =>
      let (out, st2) := u8Step replace st b
      out ++ u8Run replace st2 rest

def utf8Decode (replace : Bool) (bytes : List Nat) : String :=
  ⟨u8Run replace ⟨0, 0, 0, 0⟩ bytes⟩

/-- `content.decode("utf-8", errors="ignore")` as the source actually calls it. -/
def utf8DecodeIgnore (bytes : List Nat) : String := utf8Decode false bytes

/-- Modelled from the spec: the spec's claimed text accessor decoding,
"decoded as UTF-8 with invalid sequences replaced" (`errors="replace"`),
stated for comparison against the source's `errors="ignore"` call. -/
def utf8DecodeReplaceSpec (bytes : List Nat) : String := utf8Decode true bytes

/-! ### Python-level exceptions -/

/-- Exceptions that the translated code can raise or receive. -/
inductive PyErr where
  | attributeError
  | exception (msg : String)
  | extractionError (msg : String)
deriving DecidableEq

/-! ### `get_url_data` — the bounded fetch -/

/-- Transport-level failures of the bounded fetch (everything caught by the
source's blanket `except Exception`). -/
inductive NetErr where
  | timeout
  | connectionError
  | protocolError
deriving DecidableEq

/-- A successful HTTP response as the source reads it: the two headers
(`None` when absent) and the body bytes delivered by `resp.content.read`. -/
structure Resp where
  contentTypeHdr : Option String
  contentLengthHdr : Option String
  body : List Nat
deriving DecidableEq

/-- `get_url_data`: the `try` body over a transport outcome.  Header lookups
use `.get(..., "")`; the body read is capped at 65536 bytes;
`int(content_length_raw)` can itself raise `ValueError`, which the blanket
`except` also converts into the empty result. -/
def get_url_data (attempt : Except NetErr Resp) : List Nat × String × Int :=
  match attempt with
  | .error _ => ([], "", -1)
  | .ok r =>
      let content_type := r.contentTypeHdr.getD ""
      let content_length_raw := r.contentLengthHdr.getD ""
      let content := r.body.take 65536
      if content_length_raw = "" then (content, content_type, -1)
      else
        match pyInt content_length_raw with
        | some n => (content, content_type, n)
        | none => ([], "", -1)

/-! ### `get_page_metadata` / `get_page_text` — the classifier -/

/-- The view of a parsed title tag the source touches: `tag.string`
(`None` when the tag does not have a single string child). -/
structure TitleTag where
  string : Option String
deriving DecidableEq

/-- The view of a `BeautifulSoup` parse the source touches: `soup.title`
(`None` when no title element is found). -/
structure Soup where
  title : Option TitleTag
deriving DecidableEq

/-- The fields of a decoded `PIL.Image` the source touches. -/
structure ImgInfo where
  format : String
  width : Nat
  height : Nat
deriving DecidableEq

/-- `get_page_metadata`.  The external parsers are parameters:
`beautifulSoup` models `BeautifulSoup(text, "lxml")`, `imageOpen` models
`Image.open` (`none` = decode raise, absorbed by the branch's own
`try`/`except`), `magicFromBuffer` models `magic.from_buffer`.  The text
branch's `soup.title.string.strip()` raises `AttributeError` when
`.string` is `None`; nothing in the source catches that. -/
def get_page_metadata (beautifulSoup : String → Soup) (imageOpen : List Nat → Option ImgInfo)
    (magicFromBuffer : List Nat → String)
    (content : List Nat) (content_type : String) (content_length : Int) :
    Except PyErr String :=
  if content = [] then .ok ""
  else if pyStarts content_type "text" && !pyStarts content_type "text/plain" then
    let soup := beautifulSoup (utf8DecodeIgnore content)
    match soup.title with
    | some t =>
        match t.string with
        | some s => .ok ("[URL] " ++ pyStrip s)
        | none => .error .attributeError
    | none => .ok ""
  else if pyStarts content_type "image" then
    match imageOpen content with
    | some im =>
        .ok ("[IMAGE] " ++ im.format ++ " | " ++ toString im.width ++ "x" ++
          toString im.height ++ " | Size: " ++ toString content_length)
    | none => .ok "[IMAGE] Unknown Format"
  else
    .ok ("[FILE] " ++ magicFromBuffer content)

/-- `get_page_text`. -/
def get_page_text (content : List Nat) (content_type : String) (content_length : Int) : String :=
  if pyStarts content_type "text/plain" then utf8DecodeIgnore content else ""

/-- `print_url_metadata`: the value handed to the callback, `none` when the
callback is not invoked (falsy metadata). -/
def print_url_metadata (beautifulSoup : String → Soup) (imageOpen : List Nat → Option ImgInfo)
    (magicFromBuffer : List Nat → String) (attempt : Except NetErr Resp) :
    Except PyErr (Option String) :=
  match get_url_data attempt with
  | (content, content_type, content_length) =>
      match get_page_metadata beautifulSoup imageOpen magicFromBuffer
          content content_type content_length with
      | .error e => .error e
      | .ok m => .ok (if m = "" then none else some m)

/-! ### Media resolver — the yt_dlp-facing code

The extraction backend (`yt_dlp.YoutubeDL(...).extract_info`, wrapped by
`get_url_youtube_info`) is an external collaborator; it is modelled as a
function parameter returning either an info record or a raised error.
Info records and entries are dicts in the source; the fields the source
reads are `id`, `videoId`, `formats` and `entries` (`none` = key absent),
plus the per-format fields `vcodec`, `acodec`, `url`. -/

/-- One element of a `formats` list, restricted to the keys the source reads. -/
structure Fmt where
  vcodec : Option String
  acodec : Option String
  url : Option String
deriving DecidableEq

/-- A yt_dlp info record / search entry, restricted to the keys the source
reads.  An `entries` element is `Option YDict` (`none` = Python `None` or
another falsy entry). -/
inductive YDict where
  | mk (id videoId : Option String) (formats : Option (List Fmt))
      (entries : Option (List (Option YDict))) : YDict

def YDict.id : YDict → Option String
  | .mk i _ _ _ => i

def YDict.videoId : YDict → Option String
  | .mk _ v _ _ => v

def YDict.formats : YDict → Option (List Fmt)
  | .mk _ _ f _ => f

def YDict.entries : YDict → Option (List (Option YDict))
  | .mk _ _ _ e => e

/-- Python truthiness of an optional string: present and non-empty. -/
def pyTruthyStr : Option String → Bool
  | none => false
  | some s => s ≠ ""

/-- Python `a or b` on two optional strings. -/
def pyOrStr (a b : Option String) : Option String :=
  if pyTruthyStr a then a else b

/-- The canonical watch URL synthesised in `get_first_valid_entry`. -/
def watchUrl (v : String) : String := "https://www.youtube.com/watch?v=" ++ v

/-- `get_first_valid_entry`.  `ydl` models `get_url_youtube_info` (which can
return `None`, a dict, or raise).  Note the source has no `try`/`except`
around the backend call: a raised error propagates (`.error err`).
`if info and "formats" in info` is: result truthy and `formats` key present. -/
def get_first_valid_entry (ydl : String → Except PyErr (Option YDict)) :
    List (Option YDict) → Except PyErr YDict
  | [] => .error (.exception "No compatible YouTube video found in results.")
  | none :: rest => get_first_valid_entry ydl rest
  | some entry :: rest =>
      let video_id := pyOrStr entry.id entry.videoId
      if pyTruthyStr video_id then
        match ydl (watchUrl (video_id.getD "")) with
        | .error err => .error err
        | .ok (some info) =>
            if info.formats.isSome then .ok info
            else get_first_valid_entry ydl rest
        | .ok none => get_first_valid_entry ydl rest
      else get_first_valid_entry ydl rest

/-- `fmt.get("acodec") not in (None, "none")`. -/
def acodecUsable : Option String → Bool
  | none => false
  | some s => s ≠ "none"

/-- `fmt.get("url")` truthiness. -/
def urlUsable : Option String → Bool
  | none => false
  | some u => u ≠ ""

/-- The first loop's predicate: strict audio-only format with a usable URL. -/
def audioOnlyOk (f : Fmt) : Bool :=
  f.vcodec == some "none" && acodecUsable f.acodec && urlUsable f.url

/-- The second (fallback) loop's predicate: any audio-capable format with a
usable URL. -/
def anyAudioOk (f : Fmt) : Bool :=
  acodecUsable f.acodec && urlUsable f.url

/-- First loop of `get_direct_audio_url`: first strict audio-only format's URL. -/
def pickAudioOnly : List Fmt → Option String
  | [] => none
  | f :: rest => if audioOnlyOk f then f.url else pickAudioOnly rest

/-- Second loop of `get_direct_audio_url`: first audio-capable format's URL. -/
def pickAnyAudio : List Fmt → Option String
  | [] => none
  | f :: rest => if anyAudioOk f then f.url else pickAnyAudio rest

/-- The two selection loops plus the terminal raise, over `info.get("formats", [])`. -/
def select_formats (info : YDict) : Except PyErr String :=
  let fmts := info.formats.getD []
  match pickAudioOnly fmts with
  | some u => .ok u
  | none =>
      match pickAnyAudio fmts with
      | some u => .ok u
      | none => .error (.exception "No compatible audio format found")

/-- `if "entries" in info and info["entries"]: info = info["entries"][0]`.
When `entries[0]` is Python `None`, the subsequent `info.get("formats", [])`
raises `AttributeError`. -/
def collapse_entries (info : YDict) : Except PyErr YDict :=
  match info.entries with
  | some (some d :: _) => .ok d
  | some (none :: _) => .error .attributeError
  | some [] => .ok info
  | none => .ok info

/-- `get_direct_audio_url`, with the extraction backend as a parameter.
`youtube_url.strip()` is applied before extraction. -/
def get_direct_audio_url (extract : String → Except PyErr YDict) (youtube_url : String) :
    Except PyErr String :=
  match extract (pyStrip youtube_url) with
  | .error e => .error e
  | .ok info =>
      match collapse_entries info with
      | .error e => .error e
      | .ok info2 => select_formats info2

/-! ### `get_url_real_time` — the playback-offset parser -/

/-- The processed time field for one marker:
`url.split(sep)[1].split("&")[0].split("?")[0].split("#")[0].replace("s", "")`. -/
def timeField (url sep : String) : String :=
  let a := (pySplit url sep).getD 1 ""
  let b := (pySplit a "&").getD 0 ""
  let c := (pySplit b "?").getD 0 ""
  let d := (pySplit c "#").getD 0 ""
  removeAllChar 's' d

/-- The marker tuple `("&t=", "?t=", "#t=")` in source order. -/
def tMarkers : List String := ["&t=", "?t=", "#t="]

/-- The marker loop of `get_url_real_time`: `int(...)`'s `ValueError`
(`pyInt = none`) is caught and the loop continues. -/
def goMarkers (url : String) : List String → Int
  | [] => 0
  | sep :: rest =>
      if pyContains url sep then
        match pyInt (timeField url sep) with
        | some n => n
        | none => goMarkers url rest
      else goMarkers url rest

/-- `get_url_real_time`. -/
def get_url_real_time (url : String) : Int := goMarkers url tMarkers

/-! ### Concrete oracle instances and records for witnesses and counterexamples -/

/-- Parse oracle: document with no title element. -/
def soupNone : String → Soup := fun _ => ⟨none⟩

/-- Parse oracle: title element whose text is whitespace only
(`<title>  </title>`, where bs4 gives `.string = "  "`). -/
def soupWs : String → Soup := fun _ => ⟨some ⟨some "  "⟩⟩

/-- Parse oracle: title element whose `.string` is `None` (bs4 returns `None`
when the tag does not have exactly one string child, e.g. an empty title). -/
def soupNoString : String → Soup := fun _ => ⟨some ⟨none⟩⟩

/-- Parse oracle: ordinary page title with surrounding whitespace. -/
def soupHello : String → Soup := fun _ => ⟨some ⟨some " Hello World "⟩⟩

/-- Image oracle: bytes that fail to decode (`Image.open` raises). -/
def imgNone : List Nat → Option ImgInfo := fun _ => none

/-- Image oracle: a decodable 10x20 PNG. -/
def imgPng : List Nat → Option ImgInfo := fun _ => some ⟨"PNG", 10, 20⟩

/-- Magic oracle returning a fixed sniffed type. -/
def magicAscii : List Nat → String := fun _ => "ASCII text"

/-- Magic oracle returning the empty sniff result. -/
def magicEmpty : List Nat → String := fun _ => ""

def fmtOpus : Fmt := ⟨some "none", some "opus", some "u2"⟩
def fmtV1 : Fmt := ⟨some "h264", some "aac", some "v1"⟩
def fmtA1 : Fmt := ⟨some "none", some "opus", some "a1"⟩

/-- A search entry that is a non-empty dict without `id`/`videoId`. -/
def entryIdless : YDict := .mk none none none none

/-- Search entry with id "A" (its per-candidate extraction will fail). -/
def entryA : YDict := .mk (some "A") none none none

/-- Search entry with id "B" that already carries a `formats` list. -/
def entryB : YDict := .mk (some "B") none (some [fmtOpus]) none

/-- The backend's record for video "B". -/
def recB : YDict := .mk (some "B") none (some [fmtA1]) none

/-- Backend double: extraction fails for "A", succeeds for "B". -/
def bEx : String → Except PyErr (Option YDict) := fun u =>
  if u = watchUrl "A" then .error (.extractionError "download failed")
  else if u = watchUrl "B" then .ok (some recB)
  else .ok none

/-- Backend double: every extraction fails. -/
def bFailAll : String → Except PyErr (Option YDict) := fun _ =>
  .error (.extractionError "boom")

/-- Backend double: every extraction fails (C4 variant). -/
def bFailB : String → Except PyErr (Option YDict) := fun _ =>
  .error (.extractionError "network block")

/-- Backend double: every extraction returns the record for "B". -/
def bOkRecB : String → Except PyErr (Option YDict) := fun _ => .ok (some recB)

/-- Resolved single-item record with a muxed format before an audio-only one. -/
def infoC8 : YDict := .mk none none (some [fmtV1, fmtA1]) none

/-- Extractor double resolving to `infoC8`. -/
def exC8 : String → Except PyErr YDict := fun _ => .ok infoC8

/-- Extractor double resolving to a record with an empty formats list. -/
def exEmpty : String → Except PyErr YDict := fun _ => .ok (.mk none none (some []) none)

/-- Extractor double: collection whose first entry is `infoC8`, with a junk tail. -/
def exColl : String → Except PyErr YDict := fun _ =>
  .ok (.mk none none none (some [some infoC8, none]))

/-- Extractor double: collection whose only entry is `infoC8`. -/
def exColl2 : String → Except PyErr YDict := fun _ =>
  .ok (.mk none none none (some [some infoC8]))

/-! ## Helper lemmas -/

theorem listStarts_false_of_head_ne (c d : Char) (cs ds es : List Char)
    (hne : (d == c) = false) (h : listStarts (c :: cs) es = true) :
    listStarts (d :: ds) es = false := by
  cases es with
  | nil => simp [listStarts] at h
  | cons e es2 =>
    have h2 : ((c == e) && listStarts cs es2) = true := h
    have h1 : (c == e) = true := (Bool.and_eq_true _ _ ▸ h2).1
    have hce : c = e := eq_of_beq h1
    show ((d == e) && listStarts ds es2) = false
    rw [← hce, hne]
    exact Bool.false_and _

/-- A content type with prefix "text/plain" does not have prefix "image". -/
theorem starts_tp_not_image (ct : String) (h : pyStarts ct "text/plain" = true) :
    pyStarts ct "image" = false :=
  listStarts_false_of_head_ne 't' 'i' "ext/plain".data "mage".data ct.data (by decide) h

/-- A content type with prefix "image" does not have prefix "text". -/
theorem starts_image_not_text (ct : String) (h : pyStarts ct "image" = true) :
    pyStarts ct "text" = false :=
  listStarts_false_of_head_ne 'i' 't' "mage".data "ext".data ct.data (by decide) h

/-- A "[FILE] " descriptor is never the empty string. -/
theorem file_desc_ne_empty (m : String) : ("[FILE] " ++ m) ≠ "" := by
  intro h
  have h2 := congrArg String.data h
  simp [String.data_append] at h2

/-- The marker loop returns 0 when no marker occurs in the URL. -/
theorem goMarkers_zero_of_none (url : String) (seps : List String)
    (h : ∀ sep ∈ seps, pyContains url sep = false) : goMarkers url seps = 0 := by
  induction seps with
  | nil => rfl
  | cons sep rest ih =>
    have h0 : pyContains url sep = false := h sep (List.mem_cons_self _ _)
    simp only [goMarkers, h0, Bool.false_eq_true, if_false]
    exact ih fun s hs => h s (List.mem_cons_of_mem _ hs)

/-- Every value the marker loop returns is either the default 0 or the
successful parse of some occurring marker's processed time field. -/
theorem goMarkers_sound (url : String) (seps : List String) :
    goMarkers url seps = 0 ∨
    ∃ sep, sep ∈ seps ∧ pyContains url sep = true ∧
      pyInt (timeField url sep) = some (goMarkers url seps) := by
  induction seps with
  | nil => exact Or.inl rfl
  | cons sep rest ih =>
    cases hc : pyContains url sep with
    | false =>
      have he : goMarkers url (sep :: rest) = goMarkers url rest := by
        simp only [goMarkers, hc, Bool.false_eq_true, if_false]
      rw [he]
      rcases ih with h0 | ⟨s, hs, hcs, hps⟩
      · exact Or.inl h0
      · exact Or.inr ⟨s, List.mem_cons_of_mem _ hs, hcs, hps⟩
    | true =>
      cases hp : pyInt (timeField url sep) with
      | some n =>
        have he : goMarkers url (sep :: rest) = n := by
          simp only [goMarkers, hc, if_true, hp]
        rw [he]
        exact Or.inr ⟨sep, List.mem_cons_self _ _, hc, hp⟩
      | none =>
        have he : goMarkers url (sep :: rest) = goMarkers url rest := by
          simp only [goMarkers, hc, if_true, hp]
        rw [he]
        rcases ih with h0 | ⟨s, hs, hcs, hps⟩
        · exact Or.inl h0
        · exact Or.inr ⟨s, List.mem_cons_of_mem _ hs, hcs, hps⟩

/-- First-match semantics of the audio-only selection loop. -/
theorem pickAudioOnly_append (pre : List Fmt) (f : Fmt) (post : List Fmt)
    (hpre : ∀ g ∈ pre, audioOnlyOk g = false) (hf : audioOnlyOk f = true) :
    pickAudioOnly (pre ++ f :: post) = f.url := by
  induction pre with
  | nil => simp [pickAudioOnly, hf]
  | cons g gs ih =>
    have hg : audioOnlyOk g = false := hpre g (List.mem_cons_self _ _)
    simp only [List.cons_append, pickAudioOnly, hg, Bool.false_eq_true, if_false]
    exact ih fun x hx => hpre x (List.mem_cons_of_mem _ hx)

/-- The audio-only loop only returns truthy (non-empty) URLs. -/
theorem pickAudioOnly_ne_empty (fs : List Fmt) (s : String)
    (h : pickAudioOnly fs = some s) : s ≠ "" := by
  induction fs with
  | nil => simp [pickAudioOnly] at h
  | cons f rest ih =>
    cases hf : audioOnlyOk f with
    | true =>
      simp only [pickAudioOnly, hf, if_true] at h
      have hf2 : (f.vcodec == some "none" && acodecUsable f.acodec && urlUsable f.url) = true := hf
      have hu : urlUsable f.url = true := (Bool.and_eq_true _ _ ▸ hf2).2
      rw [h] at hu
      simpa [urlUsable] using hu
    | false =>
      simp only [pickAudioOnly, hf, Bool.false_eq_true, if_false] at h
      exact ih h

/-- The fallback loop only returns truthy (non-empty) URLs. -/
theorem pickAnyAudio_ne_empty (fs : List Fmt) (s : String)
    (h : pickAnyAudio fs = some s) : s ≠ "" := by
  induction fs with
  | nil => simp [pickAnyAudio] at h
  | cons f rest ih =>
    cases hf : anyAudioOk f with
    | true =>
      simp only [pickAnyAudio, hf, if_true] at h
      have hf2 : (acodecUsable f.acodec && urlUsable f.url) = true := hf
      have hu : urlUsable f.url = true := (Bool.and_eq_true _ _ ▸ hf2).2
      rw [h] at hu
      simpa [urlUsable] using hu
    | false =>
      simp only [pickAnyAudio, hf, Bool.false_eq_true, if_false] at h
      exact ih h

/-- The audio-only loop finds nothing when no format has a usable URL. -/
theorem pickAudioOnly_none_of_unusable (fs : List Fmt)
    (h : ∀ f ∈ fs, urlUsable f.url = false) : pickAudioOnly fs = none := by
  induction fs with
  | nil => rfl
  | cons f rest ih =>
    have hu := h f (List.mem_cons_self _ _)
    have hf : audioOnlyOk f = false := by simp [audioOnlyOk, hu]
    simp only [pickAudioOnly, hf, Bool.false_eq_true, if_false]
    exact ih fun x hx => h x (List.mem_cons_of_mem _ hx)

/-- The fallback loop finds nothing when no format has a usable URL. -/
theorem pickAnyAudio_none_of_unusable (fs : List Fmt)
    (h : ∀ f ∈ fs, urlUsable f.url = false) : pickAnyAudio fs = none := by
  induction fs with
  | nil => rfl
  | cons f rest ih =>
    have hu := h f (List.mem_cons_self _ _)
    have hf : anyAudioOk f = false := by simp [anyAudioOk, hu]
    simp only [pickAnyAudio, hf, Bool.false_eq_true, if_false]
    exact ih fun x hx => h x (List.mem_cons_of_mem _ hx)

/-! ## Claim C1 — text/plain handling -/

/-- Claim C1, counterexample.  The claim says the classifier returns the
empty string for every non-empty "text/plain" body; in fact the dispatch
chain's `else` branch catches "text/plain" and returns a "[FILE]"
descriptor (here with the magic oracle sniffing "ASCII text").  The claim
also says the text accessor decodes with invalid sequences replaced; the
source decodes with `errors="ignore"`, dropping the invalid byte 0xFF
instead of replacing it with U+FFFD. -/
theorem c1_counterexample :
    get_page_metadata soupNone imgNone magicAscii [104] "text/plain" 5 =
      .ok "[FILE] ASCII text" ∧
    ("[FILE] ASCII text" : String) ≠ "" ∧
    get_page_text [65, 255] "text/plain" 2 = "A" ∧
    utf8DecodeReplaceSpec [65, 255] = "A�" ∧
    ("A" : String) ≠ "A�" :=
  ⟨rfl, by decide, rfl, rfl, by decide⟩

/-- Claim C1 (amended): for every non-empty fetched body whose declared
content type has prefix "text/plain", the classifier falls into the generic
file branch and returns "[FILE] " followed by the magic sniff of the body —
never the empty string — while the text accessor returns the body decoded
as UTF-8 with invalid sequences dropped (`errors="ignore"`), not replaced. -/
theorem c1_text_plain (beautifulSoup : String → Soup) (imageOpen : List Nat → Option ImgInfo)
    (magicFromBuffer : List Nat → String) (content : List Nat) (ct : String) (cl : Int)
    (hne : content ≠ []) (hct : pyStarts ct "text/plain" = true) :
    get_page_metadata beautifulSoup imageOpen magicFromBuffer content ct cl =
      .ok ("[FILE] " ++ magicFromBuffer content) ∧
    ("[FILE] " ++ magicFromBuffer content) ≠ "" ∧
    get_page_text content ct cl = utf8DecodeIgnore content := by
  refine ⟨?_, file_desc_ne_empty _, ?_⟩
  · simp [get_page_metadata, hne, hct, starts_tp_not_image ct hct]
  · simp [get_page_text, hct]

/-- Claim C1 witness: the amended theorem applied at a concrete body. -/
theorem c1_text_plain_witness :
    get_page_metadata soupNone imgNone magicAscii [104] "text/plain" 5 =
      .ok ("[FILE] " ++ magicAscii [104]) ∧
    ("[FILE] " ++ magicAscii [104]) ≠ "" ∧
    get_page_text [104] "text/plain" 5 = utf8DecodeIgnore [104] :=
  c1_text_plain soupNone imgNone magicAscii [104] "text/plain" 5 (by decide) (by decide)

/-! ## Claim C3 — the playback-offset parser -/

/-- Claim C3, counterexample.  The claim says the parser returns a
non-negative integer, parsing an unsigned integer; but Python's `int()`
accepts a sign, so "a&t=-5" yields the negative value -5. -/
theorem c3_counterexample :
    get_url_real_time "a&t=-5" = -5 ∧ get_url_real_time "a&t=-5" < 0 :=
  ⟨rfl, by decide⟩

/-- Claim C3 (amended): the parser scans the markers "&t=", "?t=", "#t=" in
order; on a marker present in the URL it takes the field after it
(truncated at the next of the three delimiter characters), removes every
"s" character, and parses a Python-style signed integer — so the result
can be negative when the field carries a sign; on parse failure it falls
through to the next marker, and it returns 0 when all markers are absent
or all parses fail.  Every non-zero result is the successful signed parse
of some occurring marker's processed field. -/
theorem c3_offset_semantics :
    (∀ url, (∀ sep ∈ tMarkers, pyContains url sep = false) → get_url_real_time url = 0) ∧
    (∀ url, get_url_real_time url = 0 ∨
      ∃ sep, sep ∈ tMarkers ∧ pyContains url sep = true ∧
        pyInt (timeField url sep) = some (get_url_real_time url)) ∧
    get_url_real_time "x&t=90s&y" = 90 ∧
    get_url_real_time "x?t=125" = 125 ∧
    get_url_real_time "https://x/y" = 0 ∧
    get_url_real_time "x&t=abc" = 0 :=
  ⟨fun url h => goMarkers_zero_of_none url tMarkers h,
   fun url => goMarkers_sound url tMarkers, rfl, rfl, rfl, rfl⟩

/-- Claim C3 witness: the amended theorem's no-marker case at a concrete URL. -/
theorem c3_offset_semantics_witness : get_url_real_time "https://x/y" = 0 :=
  c3_offset_semantics.1 "https://x/y" (by decide)

/-! ## Claim C5 — network failure recovery -/

/-- Claim C5 (confirmed): every transport failure (timeout, connection or
protocol error) makes `get_url_data` return the empty fetch result
(empty body, empty content type, length -1) instead of propagating, and
classifying that empty result yields the empty descriptor, so
`print_url_metadata` never invokes its callback for such a URL. -/
theorem c5_fetch_failure (e : NetErr) (beautifulSoup : String → Soup)
    (imageOpen : List Nat → Option ImgInfo) (magicFromBuffer : List Nat → String) :
    get_url_data (.error e) = ([], "", -1) ∧
    get_page_metadata beautifulSoup imageOpen magicFromBuffer [] "" (-1) = .ok "" ∧
    print_url_metadata beautifulSoup imageOpen magicFromBuffer (.error e) = .ok none :=
  ⟨rfl, rfl, rfl⟩

/-! ## Claim C6 — HTML title extraction -/

/-- Claim C6, counterexample.  The claim says the classifier returns the
empty string when the title is empty after trimming, without raising.  In
fact: a title whose text is whitespace only yields the non-empty
descriptor "[URL] " (the source never re-checks the trimmed title), and a
title element whose `.string` is unavailable (bs4 returns `None` when the
tag lacks a single string child, e.g. `<title></title>`) makes
`soup.title.string.strip()` raise an uncaught `AttributeError`. -/
theorem c6_counterexample :
    get_page_metadata soupWs imgNone magicEmpty [104] "text/html" 1 = .ok "[URL] " ∧
    ("[URL] " : String) ≠ "" ∧
    get_page_metadata soupNoString imgNone magicEmpty [104] "text/html" 1 =
      .error .attributeError :=
  ⟨rfl, by decide, rfl⟩

/-- Claim C6 (amended): for every non-empty body with content-type prefix
"text" but not "text/plain", when the parse has a title element with an
available string `s` the classifier returns "[URL] " followed by the
whitespace-trimmed `s` (so "[URL] " with empty remainder when `s` trims to
empty); it returns the empty string only when the title element is absent;
and it raises `AttributeError` when the title's string is unavailable. -/
theorem c6_title_extraction (beautifulSoup : String → Soup)
    (imageOpen : List Nat → Option ImgInfo) (magicFromBuffer : List Nat → String)
    (content : List Nat) (ct : String) (cl : Int)
    (hne : content ≠ []) (ht : pyStarts ct "text" = true)
    (hnp : pyStarts ct "text/plain" = false) :
    (∀ s, (beautifulSoup (utf8DecodeIgnore content)).title = some ⟨some s⟩ →
      get_page_metadata beautifulSoup imageOpen magicFromBuffer content ct cl =
        .ok ("[URL] " ++ pyStrip s)) ∧
    ((beautifulSoup (utf8DecodeIgnore content)).title = none →
      get_page_metadata beautifulSoup imageOpen magicFromBuffer content ct cl = .ok "") ∧
    ((beautifulSoup (utf8DecodeIgnore content)).title = some ⟨none⟩ →
      get_page_metadata beautifulSoup imageOpen magicFromBuffer content ct cl =
        .error .attributeError) := by
  refine ⟨fun s hs => ?_, fun hs => ?_, fun hs => ?_⟩ <;>
    simp [get_page_metadata, hne, ht, hnp, hs]

/-- Claim C6 witness: the amended theorem applied at concrete parses. -/
theorem c6_title_extraction_witness :
    get_page_metadata soupHello imgNone magicEmpty [104] "text/html" 1 =
      .ok ("[URL] " ++ pyStrip " Hello World ") ∧
    get_page_metadata soupNone imgNone magicEmpty [104] "text/html" 1 = .ok "" ∧
    get_page_metadata soupNoString imgNone magicEmpty [104] "text/html" 2 =
      .error .attributeError :=
  ⟨(c6_title_extraction soupHello imgNone magicEmpty [104] "text/html" 1
      (by decide) (by decide) (by decide)).1 " Hello World " rfl,
   (c6_title_extraction soupNone imgNone magicEmpty [104] "text/html" 1
      (by decide) (by decide) (by decide)).2.1 rfl,
   (c6_title_extraction soupNoString imgNone magicEmpty [104] "text/html" 2
      (by decide) (by decide) (by decide)).2.2 rfl⟩

/-! ## Claim C7 — image classification -/

/-- Claim C7 (confirmed): for every non-empty body with content-type prefix
"image", a successful decode yields the "[IMAGE] format | WxH | Size: n"
descriptor carrying the decoded width and height, and a failed decode
yields exactly "[IMAGE] Unknown Format"; neither case raises. -/
theorem c7_image_branch (beautifulSoup : String → Soup)
    (imageOpen : List Nat → Option ImgInfo) (magicFromBuffer : List Nat → String)
    (content : List Nat) (ct : String) (cl : Int)
    (hne : content ≠ []) (hi : pyStarts ct "image" = true) :
    (∀ im, imageOpen content = some im →
      get_page_metadata beautifulSoup imageOpen magicFromBuffer content ct cl =
        .ok ("[IMAGE] " ++ im.format ++ " | " ++ toString im.width ++ "x" ++
          toString im.height ++ " | Size: " ++ toString cl)) ∧
    (imageOpen content = none →
      get_page_metadata beautifulSoup imageOpen magicFromBuffer content ct cl =
        .ok "[IMAGE] Unknown Format") := by
  have ht : pyStarts ct "text" = false := starts_image_not_text ct hi
  refine ⟨fun im him => ?_, fun him => ?_⟩ <;>
    simp [get_page_metadata, hne, ht, hi, him]

/-- Claim C7 witness: the image branch applied at a decodable and at an
undecodable byte sequence. -/
theorem c7_image_branch_witness :
    get_page_metadata soupNone imgPng magicEmpty [1] "image/png" (-1) =
      .ok ("[IMAGE] " ++ "PNG" ++ " | " ++ toString (10 : Nat) ++ "x" ++
        toString (20 : Nat) ++ " | Size: " ++ toString (-1 : Int)) ∧
    get_page_metadata soupNone imgNone magicEmpty [1] "image/png" 7 =
      .ok "[IMAGE] Unknown Format" :=
  ⟨(c7_image_branch soupNone imgPng magicEmpty [1] "image/png" (-1)
      (by decide) (by decide)).1 ⟨"PNG", 10, 20⟩ rfl,
   (c7_image_branch soupNone imgNone magicEmpty [1] "image/png" 7
      (by decide) (by decide)).2 rfl⟩

/-! ## Claim C2 — candidate-walk fault tolerance -/

/-- Claim C2, counterexample.  On the claim's own scenario — entries
[null, id-less, id "A", id "B" with formats] with a backend that fails
extraction for "A" and succeeds for "B" — `get_first_valid_entry` does not
skip the failing candidate: the source has no `try`/`except` around the
backend call, so the extraction error for "A" propagates and the record
for "B" is never returned. -/
theorem c2_counterexample :
    get_first_valid_entry bEx [none, some entryIdless, some entryA, some entryB] =
      .error (.extractionError "download failed") ∧
    get_first_valid_entry bEx [none, some entryIdless, some entryA, some entryB] ≠
      .ok recB :=
  ⟨rfl, fun h => Except.noConfusion h⟩

/-- Claim C2 (amended): `get_first_valid_entry` skips falsy entries and
entries without a truthy id, but when the per-candidate backend call raises
an extraction error the error propagates immediately — the remaining
entries are not tried. -/
theorem c2_error_propagation (ydl : String → Except PyErr (Option YDict)) :
    (∀ rest, get_first_valid_entry ydl (none :: rest) = get_first_valid_entry ydl rest) ∧
    (∀ (e : YDict) (rest : List (Option YDict)) (err : PyErr) (v : String),
      pyOrStr e.id e.videoId = some v → v ≠ "" → ydl (watchUrl v) = .error err →
      get_first_valid_entry ydl (some e :: rest) = .error err) := by
  constructor
  · intro rest; rfl
  · intro e rest err v hv hvt hb
    simp [get_first_valid_entry, hv, pyTruthyStr, hvt, hb]

/-- Claim C2 witness: the amended theorem applied to a concrete failing
candidate. -/
theorem c2_error_propagation_witness :
    get_first_valid_entry bFailAll [some entryA] = .error (.extractionError "boom") :=
  (c2_error_propagation bFailAll).2 entryA [] (.extractionError "boom") "A"
    rfl (by decide) rfl

/-! ## Claim C4 — no cheap path for entries carrying formats -/

/-- Claim C4, counterexample.  The claim says an entry that already carries
a `formats` list is returned immediately without a backend call.  `entryB`
carries formats, yet with a backend whose every call fails the function
returns the backend's error — so the backend was invoked and the entry was
not returned. -/
theorem c4_counterexample :
    get_first_valid_entry bFailB [some entryB] = .error (.extractionError "network block") ∧
    get_first_valid_entry bFailB [some entryB] ≠ .ok entryB :=
  ⟨rfl, fun h => Except.noConfusion h⟩

/-- Claim C4 (amended): `get_first_valid_entry` never inspects an entry's
own `formats` list; for every entry with a truthy `id`/`videoId` it invokes
the backend on the synthesized watch URL and returns the backend's record
whenever that record carries a `formats` key — whether or not the entry
itself already had formats. -/
theorem c4_backend_always_called (ydl : String → Except PyErr (Option YDict))
    (e : YDict) (rest : List (Option YDict)) (v : String) (d : YDict)
    (hv : pyOrStr e.id e.videoId = some v) (hvt : v ≠ "")
    (hb : ydl (watchUrl v) = .ok (some d)) (hf : d.formats.isSome = true) :
    get_first_valid_entry ydl (some e :: rest) = .ok d := by
  simp [get_first_valid_entry, hv, pyTruthyStr, hvt, hb, hf]

/-- Claim C4 witness: the amended theorem at the formats-carrying `entryB`,
whose result is the backend's record `recB`, not `entryB`. -/
theorem c4_backend_always_called_witness :
    get_first_valid_entry bOkRecB [some entryB] = .ok recB :=
  c4_backend_always_called bOkRecB entryB [] "B" recB rfl (by decide) rfl rfl

/-! ## Claim C8 — audio-only preference -/

/-- Claim C8 (confirmed): on the spec's example formats list the muxed
"v1" stream loses to the audio-only "a1"; in general, the first format
whose vcodec is the "none" sentinel, whose acodec is present and not
"none", and whose URL is truthy wins over any earlier non-qualifying
(e.g. muxed) entry. -/
theorem c8_audio_only_preferred :
    get_direct_audio_url exC8 "https://yt/v" = .ok "a1" ∧
    (∀ (extract : String → Except PyErr YDict) (u : String) (info : YDict)
        (pre post : List Fmt) (f : Fmt),
      extract (pyStrip u) = .ok info → info.entries = none →
      info.formats = some (pre ++ f :: post) →
      (∀ g ∈ pre, audioOnlyOk g = false) → audioOnlyOk f = true →
      ∃ s, f.url = some s ∧ get_direct_audio_url extract u = .ok s) := by
  constructor
  · rfl
  · intro extract u info pre post f hx hent hfmt hpre hf
    have hf2 : (f.vcodec == some "none" && acodecUsable f.acodec && urlUsable f.url) = true := hf
    have hu : urlUsable f.url = true := (Bool.and_eq_true _ _ ▸ hf2).2
    cases hfu : f.url with
    | none => rw [hfu] at hu; simp [urlUsable] at hu
    | some s =>
      refine ⟨s, rfl, ?_⟩
      have hcoll : collapse_entries info = .ok info := by
        simp [collapse_entries, hent]
      have hpick : pickAudioOnly (pre ++ f :: post) = some s := by
        rw [pickAudioOnly_append pre f post hpre hf, hfu]
      unfold get_direct_audio_url
      rw [hx]
      dsimp only
      rw [hcoll]
      dsimp only
      simp [select_formats, hfmt, hpick]

/-- Claim C8 witness: the general preference statement applied to the
spec's example list. -/
theorem c8_audio_only_preferred_witness :
    ∃ s, fmtA1.url = some s ∧ get_direct_audio_url exC8 "https://yt/v" = .ok s :=
  c8_audio_only_preferred.2 exC8 "https://yt/v" infoC8 [fmtV1] [] fmtA1
    rfl rfl rfl (by decide) (by decide)

/-! ## Claim C9 — terminal "no compatible audio format" error -/

/-- Claim C9 (confirmed): an empty formats list, and likewise any formats
list in which no entry has a truthy URL, makes `get_direct_audio_url` fail
with the terminal "No compatible audio format found" error; and every
successful result is a non-empty stream URL — it never silently returns
the empty string. -/
theorem c9_no_format_error :
    (∀ (extract : String → Except PyErr YDict) (u : String) (info : YDict),
      extract (pyStrip u) = .ok info → info.entries = none → info.formats = some [] →
      get_direct_audio_url extract u = .error (.exception "No compatible audio format found")) ∧
    (∀ (extract : String → Except PyErr YDict) (u : String) (info : YDict) (fs : List Fmt),
      extract (pyStrip u) = .ok info → info.entries = none → info.formats = some fs →
      (∀ f ∈ fs, urlUsable f.url = false) →
      get_direct_audio_url extract u = .error (.exception "No compatible audio format found")) ∧
    (∀ (extract : String → Except PyErr YDict) (u s : String),
      get_direct_audio_url extract u = .ok s → s ≠ "") := by
  refine ⟨?_, ?_, ?_⟩
  · intro extract u info hx hent hfmt
    have hcoll : collapse_entries info = .ok info := by simp [collapse_entries, hent]
    unfold get_direct_audio_url
    rw [hx]
    dsimp only
    rw [hcoll]
    dsimp only
    simp [select_formats, hfmt, pickAudioOnly, pickAnyAudio]
  · intro extract u info fs hx hent hfmt hfs
    have hcoll : collapse_entries info = .ok info := by simp [collapse_entries, hent]
    unfold get_direct_audio_url
    rw [hx]
    dsimp only
    rw [hcoll]
    dsimp only
    simp [select_formats, hfmt, pickAudioOnly_none_of_unusable fs hfs,
      pickAnyAudio_none_of_unusable fs hfs]
  · intro extract u s h
    unfold get_direct_audio_url at h
    cases hx : extract (pyStrip u) with
    | error e => rw [hx] at h; simp at h
    | ok info =>
      rw [hx] at h
      dsimp only at h
      cases hc : collapse_entries info with
      | error e => rw [hc] at h; simp at h
      | ok info2 =>
        rw [hc] at h
        dsimp only at h
        simp only [select_formats] at h
        cases hp : pickAudioOnly (info2.formats.getD []) with
        | some u2 =>
          rw [hp] at h
          have h2 : u2 = s := by simpa using h
          exact h2 ▸ pickAudioOnly_ne_empty _ u2 hp
        | none =>
          rw [hp] at h
          dsimp only at h
          cases hq : pickAnyAudio (info2.formats.getD []) with
          | some u2 =>
            rw [hq] at h
            have h2 : u2 = s := by simpa using h
            exact h2 ▸ pickAnyAudio_ne_empty _ u2 hq
          | none => rw [hq] at h; simp at h

/-- Claim C9 witness: the empty-formats case at a concrete extractor. -/
theorem c9_no_format_error_witness :
    get_direct_audio_url exEmpty "u" = .error (.exception "No compatible audio format found") :=
  c9_no_format_error.1 exEmpty "u" (.mk none none (some []) none) rfl rfl rfl

/-! ## Claim C10 — only the first collection entry matters -/

/-- Claim C10 (confirmed): when the extraction result is a collection with
a non-empty entries list, `get_direct_audio_url` collapses to entries[0]
and nothing else: two collection results agreeing on their first entry
produce the same stream URL or the same raised error, regardless of the
later entries. -/
theorem c10_only_first_entry (extract1 extract2 : String → Except PyErr YDict)
    (u1 u2 : String) (i1 i2 : YDict) (e0 : Option YDict)
    (t1 t2 : List (Option YDict))
    (hx1 : extract1 (pyStrip u1) = .ok i1) (hx2 : extract2 (pyStrip u2) = .ok i2)
    (he1 : i1.entries = some (e0 :: t1)) (he2 : i2.entries = some (e0 :: t2)) :
    get_direct_audio_url extract1 u1 = get_direct_audio_url extract2 u2 := by
  unfold get_direct_audio_url
  rw [hx1, hx2]
  cases e0 with
  | none => simp [collapse_entries, he1, he2]
  | some d => simp [collapse_entries, he1, he2]

/-- Claim C10 witness: two collections sharing entries[0] but differing in
their tails resolve identically. -/
theorem c10_only_first_entry_witness :
    get_direct_audio_url exColl "u" = get_direct_audio_url exColl2 "v" :=
  c10_only_first_entry exColl exColl2 "u" "v"
    (.mk none none none (some [some infoC8, none]))
    (.mk none none none (some [some infoC8]))
    (some infoC8) [none] [] rfl rfl rfl rfl
